import Mathlib

/-!
Verification development for the demo-test harness: the phased autofill
verification protocol (scenario / phase-window / field-spec data model, the
phase-synchronized polling loop, the scoring policy) and the concrete
comprehensive test script.

The five Python scripts under demo-test/ are embedded as pure functions over
an `Adapter` record that supplies the browser responses (network quiescence,
trigger-control count, URL-match time, field reads).  The parameterized
verification Engine described by the specification (section 4.1) has no
implementation of its own in the repository — only the five ad-hoc scripts
exist — so the Engine is modelled from the spec, instantiated with the data
declared by test-demo-comprehensive.py, and compared against the script's own
computations where those exist in source.
-/

namespace DemoTest

/-- Modelled from the spec: a demo scenario — trigger index among matching
controls and the expected post-trigger URL pattern (spec section 3). -/
structure DemoScenario where
  triggerIndex : Nat
  urlPattern : String
deriving Repr, DecidableEq

/-- Modelled from the spec: a named field to observe — logical name, opaque
locator descriptor, and the phase index in which it is expected to become
non-empty (spec section 3). -/
structure FieldSpec where
  name : String
  locator : String
  phase : Nat
deriving Repr, DecidableEq

/-- Modelled from the spec: a contiguous time window (duration in ms,
relative to the end of the previous window) during which one group of
fields is expected to populate (spec section 3). -/
structure PhaseWindow where
  duration : Nat
deriving Repr, DecidableEq

/-- Modelled from the spec: the value read from one FieldSpec at one point in
the run; `time` is ms elapsed since trigger, `phase` the window index. -/
structure Observation where
  field : String
  value : String
  phase : Nat
  time : Nat
deriving Repr, DecidableEq

/-- Modelled from the spec: the fatal error taxonomy of section 7 — these
abort the run with no Verdict, unlike per-field read failures. -/
inductive EngineError where
  | NavigationError
  | TriggerNotFoundError
  | TransitionTimeoutError
deriving Repr, DecidableEq

/-- Modelled from the spec: aggregate result for one run (spec section 3). -/
structure Verdict where
  observations : List Observation
  populated : List (String × Bool)
  successRate : ℚ
  passed : Bool
deriving Repr, DecidableEq

/-- The browser-driver responses one run consumes: when (if ever) the entry
page reaches network quiescence, how many trigger controls match, when (if
ever) the post-trigger URL matches, and the value read for a locator at a
given elapsed time (`none` = element missing / unreadable). -/
structure Adapter where
  quiescenceAt : Option Nat
  triggerCount : Nat
  urlMatchAt : Option Nat
  readField : Nat → String → Option String

/-- Navigation timeout: `page.goto(..., wait_until="networkidle")` default
bound, 30s (spec section 4.1 step 1). -/
def navigationTimeoutMs : Nat := 30000

/-- Transition timeout: `page.wait_for_url("**/shipping", timeout=10000)`
(test-demo-comprehensive.py line 25). -/
def transitionTimeoutMs : Nat := 10000

/-- Python truthiness of a string, as used by `if f` in the scripts'
field checks: non-empty means truthy. -/
def pyTruthy (s : String) : Bool := s ≠ ""

/-- Cumulative duration of the first `n` phase windows. -/
def cumDur : List PhaseWindow → Nat → Nat
  | _, 0 => 0
  | [], _ + 1 => 0
  | w :: ws, n + 1 => w.duration + cumDur ws n

/-- Phase-synchronized polling (spec section 4.1 step 4): process the
remaining windows in order starting at window index `idx` with `clock` ms
already elapsed since trigger; after each window's wait, read every field
whose phase equals the window index and record one Observation per field.
A failed read (`none`) is recorded as an empty-value Observation. -/
def collectObservations (a : Adapter) :
    List PhaseWindow → Nat → Nat → List FieldSpec → List Observation
  | [], _, _, _ => []
  | w :: ws, idx, clock, fields =>
    (fields.filter (fun f => f.phase == idx)).map
      (fun f =>
        { field := f.name
          value := (a.readField (clock + w.duration) f.locator).getD ""
          phase := idx
          time := clock + w.duration })
    ++ collectObservations a ws (idx + 1) (clock + w.duration) fields

/-- Final value of a named field at run end: the value of its recorded
Observation, empty if none was recorded. -/
def finalValue (obs : List Observation) (n : String) : String :=
  ((obs.find? (fun o => o.field == n)).map Observation.value).getD ""

/-- Scoring policy (spec sections 4.1 step 5 and 4.2): per-field populated =
observed value non-empty; success rate = populated count / declared field
count; pass = success rate ≥ threshold. -/
def mkVerdict (fields : List FieldSpec) (obs : List Observation)
    (threshold : ℚ) : Verdict :=
  let flags := fields.map (fun f => (f.name, pyTruthy (finalValue obs f.name)))
  let rate : ℚ := ((flags.filter (fun p => p.2)).length : ℚ) / (fields.length : ℚ)
  { observations := obs
    populated := flags
    successRate := rate
    passed := decide (threshold ≤ rate) }

namespace Engine

/-- Modelled from the spec: the Engine's run contract (spec section 4.1) —
navigate and await quiescence (fatal NavigationError past 30s), locate the
trigger control (fatal TriggerNotFoundError when no control matches), await
the URL transition (fatal TransitionTimeoutError past 10s), then
phase-synchronized polling and scoring.  The repository implements this
only as the five ad-hoc scripts; this definition is the spec's factored
Engine. -/
def run (a : Adapter) (_s : DemoScenario) (phases : List PhaseWindow)
    (fields : List FieldSpec) (threshold : ℚ) : Except EngineError Verdict :=
  match a.quiescenceAt with
  | none => .error .NavigationError
  | some tq =>
    if navigationTimeoutMs < tq then .error .NavigationError
    else if a.triggerCount = 0 then .error .TriggerNotFoundError
    else
      match a.urlMatchAt with
      | none => .error .TransitionTimeoutError
      | some tu =>
        if transitionTimeoutMs < tu then .error .TransitionTimeoutError
        else .ok (mkVerdict fields (collectObservations a phases 0 0 fields) threshold)

end Engine

/-! Concrete data of test-demo-comprehensive.py: 17 declared fields across
4 phase windows of 5000 ms each (lines 31-95 of the script). -/

/-- The scenario test-demo-comprehensive.py runs: first Start Demo button,
navigation to the shipping page. -/
def comprehensiveScenario : DemoScenario :=
  { triggerIndex := 0, urlPattern := "**/shipping" }

/-- The four 5-second waits of test-demo-comprehensive.py (lines 32, 45,
58, 71), as declared phase windows. -/
def comprehensivePhases : List PhaseWindow :=
  [⟨5000⟩, ⟨5000⟩, ⟨5000⟩, ⟨5000⟩]

/-- The 17 fields test-demo-comprehensive.py reads, with the selector used
and the step (phase index) in which each is read (lines 33-36, 46-49,
59-62, 72-76). -/
def comprehensiveFields : List FieldSpec :=
  [ { name := "contact_name", locator := "#origin-contact-name", phase := 0 }
  , { name := "contact_company", locator := "#origin-contact-company", phase := 0 }
  , { name := "contact_phone", locator := "#origin-contact-phone", phase := 0 }
  , { name := "contact_email", locator := "#origin-contact-email", phase := 0 }
  , { name := "origin_address", locator := "#origin-address", phase := 1 }
  , { name := "origin_city", locator := "#origin-city", phase := 1 }
  , { name := "origin_state", locator := "#origin-state", phase := 1 }
  , { name := "origin_zip", locator := "#origin-zip", phase := 1 }
  , { name := "dest_name", locator := "#destination-contact-name", phase := 2 }
  , { name := "dest_company", locator := "#destination-contact-company", phase := 2 }
  , { name := "dest_address", locator := "#destination-address", phase := 2 }
  , { name := "dest_city", locator := "#destination-city", phase := 2 }
  , { name := "weight", locator := "#package-weight-value", phase := 3 }
  , { name := "length_val", locator := "[data-testid=\"dimension-length\"]", phase := 3 }
  , { name := "width_val", locator := "[data-testid=\"dimension-width\"]", phase := 3 }
  , { name := "height_val", locator := "[data-testid=\"dimension-height\"]", phase := 3 }
  , { name := "declared_value", locator := "#package-declared-value", phase := 3 }
  ]

/-! Direct embedding of test-demo-comprehensive.py itself: the straight-line
sequence of waits and reads, the success-rate computation of lines 90-98,
the generic exception handler of lines 112-115, and the exit code of
line 122. -/

/-- The (elapsed ms, selector) pairs at which test-demo-comprehensive.py
reads input values, in program order (lines 32-76): four reads after the
first 5s wait, four after the second, four after the third, five after the
fourth. -/
def comprehensiveReads : List (Nat × String) :=
  [ (5000, "#origin-contact-name"), (5000, "#origin-contact-company")
  , (5000, "#origin-contact-phone"), (5000, "#origin-contact-email")
  , (10000, "#origin-address"), (10000, "#origin-city")
  , (10000, "#origin-state"), (10000, "#origin-zip")
  , (15000, "#destination-contact-name"), (15000, "#destination-contact-company")
  , (15000, "#destination-address"), (15000, "#destination-city")
  , (20000, "#package-weight-value"), (20000, "[data-testid=\"dimension-length\"]")
  , (20000, "[data-testid=\"dimension-width\"]"), (20000, "[data-testid=\"dimension-height\"]")
  , (20000, "#package-declared-value")
  ]

/-- All 17 reads of the script, failing as a whole if any single
`input_value()` raises (the script has no per-field try/except; any raise
reaches the generic handler of line 112). -/
def scriptReadAll (a : Adapter) : Option (List String) :=
  comprehensiveReads.mapM (fun r => a.readField r.1 r.2)

/-- Lines 97-98 of test-demo-comprehensive.py: percentage of truthy values
among the collected field values. -/
def script_success_rate (vals : List String) : ℚ :=
  ((vals.filter (fun f => pyTruthy f)).length : ℚ) / (vals.length : ℚ) * 100

/-- Outcome of one execution of test_complete_demo_workflow: either the
body completed and computed a success rate, or some await raised and the
generic `except` handler ran (error screenshot, return False). -/
inductive ScriptResult where
  | ok (rate : ℚ)
  | exn
deriving Repr, DecidableEq

/-- test_complete_demo_workflow as a function of the adapter responses:
goto with networkidle (raises past 30s), first Start Demo click (raises
when no button matches), wait_for_url with 10s timeout, then the fixed
wait/read sequence; any raise is caught by the single generic handler. -/
def script_run (a : Adapter) : ScriptResult :=
  match a.quiescenceAt with
  | none => .exn
  | some tq =>
    if navigationTimeoutMs < tq then .exn
    else if a.triggerCount = 0 then .exn
    else
      match a.urlMatchAt with
      | none => .exn
      | some tu =>
        if transitionTimeoutMs < tu then .exn
        else
          match scriptReadAll a with
          | none => .exn
          | some vals => .ok (script_success_rate vals)

/-- The boolean test_complete_demo_workflow returns: True on a completed
run with success rate ≥ 70 (line 105), False on a completed run below 70
(line 110) and False from the exception handler (line 115). -/
def script_return (a : Adapter) : Bool :=
  match script_run a with
  | .ok r => decide ((70 : ℚ) ≤ r)
  | .exn => false

/-- Line 122: `exit(0 if success else 1)`. -/
def script_exit_code (a : Adapter) : Nat :=
  if script_return a then 0 else 1

/-! Concrete adapters used as witnesses. -/

/-- An adapter for a fully healthy run: immediate quiescence and URL match,
one trigger control, every field read succeeds with a non-empty value. -/
def okAdapter : Adapter :=
  { quiescenceAt := some 0
    triggerCount := 1
    urlMatchAt := some 0
    readField := fun _ _ => some "x" }

/-- An adapter where the five step-4 package fields read empty and the
other 12 fields read non-empty: the 12-of-17 scenario. -/
def adapter12 : Adapter :=
  { quiescenceAt := some 0
    triggerCount := 1
    urlMatchAt := some 0
    readField := fun _ loc =>
      if loc = "#package-weight-value" ∨ loc = "[data-testid=\"dimension-length\"]" ∨
         loc = "[data-testid=\"dimension-width\"]" ∨ loc = "[data-testid=\"dimension-height\"]" ∨
         loc = "#package-declared-value"
      then some "" else some "x" }

/-- An adapter where one field's element is missing (the read fails) and
every other read yields a non-empty value. -/
def missingFieldAdapter : Adapter :=
  { quiescenceAt := some 0
    triggerCount := 1
    urlMatchAt := some 0
    readField := fun _ loc =>
      if loc = "#origin-zip" then none else some "x" }

/-- An adapter whose page has no Start Demo control at all. -/
def noTriggerAdapter : Adapter :=
  { quiescenceAt := some 0
    triggerCount := 0
    urlMatchAt := none
    readField := fun _ _ => none }

/-- An adapter whose post-trigger URL never matches the expected pattern. -/
def noTransitionAdapter : Adapter :=
  { quiescenceAt := some 0
    triggerCount := 1
    urlMatchAt := none
    readField := fun _ _ => some "x" }

/-! Helper lemmas. -/

/-- Inversion for a completed run: the returned Verdict is exactly the one
scored from the full observation sequence. -/
theorem run_ok_elim {a : Adapter} {s : DemoScenario} {phases : List PhaseWindow}
    {fields : List FieldSpec} {th : ℚ} {v : Verdict}
    (h : Engine.run a s phases fields th = .ok v) :
    v = mkVerdict fields (collectObservations a phases 0 0 fields) th := by
  unfold Engine.run at h
  split at h
  · exact absurd h (fun hh => Except.noConfusion hh)
  · split at h
    · exact absurd h (fun hh => Except.noConfusion hh)
    · split at h
      · exact absurd h (fun hh => Except.noConfusion hh)
      · split at h
        · exact absurd h (fun hh => Except.noConfusion hh)
        · split at h
          · exact absurd h (fun hh => Except.noConfusion hh)
          · exact (Except.ok.inj h).symm

/-- A run with a quiescent page, at least one trigger control and a timely
URL match completes with a Verdict. -/
theorem run_ok_intro (a : Adapter) (s : DemoScenario) (phases : List PhaseWindow)
    (fields : List FieldSpec) (th : ℚ) (tq tu : Nat)
    (hq : a.quiescenceAt = some tq) (hq2 : tq ≤ navigationTimeoutMs)
    (ht : a.triggerCount ≠ 0)
    (hu : a.urlMatchAt = some tu) (hu2 : tu ≤ transitionTimeoutMs) :
    Engine.run a s phases fields th =
      .ok (mkVerdict fields (collectObservations a phases 0 0 fields) th) := by
  unfold Engine.run
  rw [hq, hu]
  simp [Nat.not_lt.mpr hq2, Nat.not_lt.mpr hu2, ht]

/-- The Verdict's observation sequence is the full collected sequence. -/
theorem mkVerdict_observations (fields : List FieldSpec) (obs : List Observation)
    (th : ℚ) : (mkVerdict fields obs th).observations = obs := rfl

/-- The Verdict's populated flags are one per declared field, in order. -/
theorem mkVerdict_populated (fields : List FieldSpec) (obs : List Observation)
    (th : ℚ) : (mkVerdict fields obs th).populated =
      fields.map (fun f => (f.name, pyTruthy (finalValue obs f.name))) := rfl

/-- The Verdict's success rate is populated count over declared count. -/
theorem mkVerdict_successRate (fields : List FieldSpec) (obs : List Observation)
    (th : ℚ) : (mkVerdict fields obs th).successRate =
      (((mkVerdict fields obs th).populated.filter (fun p => p.2)).length : ℚ) /
        (fields.length : ℚ) := rfl

/-- The Verdict passes exactly when the threshold is at most the rate. -/
theorem mkVerdict_passed_iff (fields : List FieldSpec) (obs : List Observation)
    (th : ℚ) : (mkVerdict fields obs th).passed = true ↔
      th ≤ (mkVerdict fields obs th).successRate :=
  decide_eq_true_iff

/-! Claim theorems. -/

/-- C1: for every completed run, the Verdict's success rate equals the
number of populated declared fields divided by the total number of declared
fields — 17 in the comprehensive scenario — computed only over the declared
FieldSpec set (the flags are exactly one per declared field, in declaration
order) and never over incidental page content. -/
theorem success_rate_counts_declared_fields :
    (∀ (a : Adapter) (s : DemoScenario) (phases : List PhaseWindow)
       (fields : List FieldSpec) (th : ℚ) (v : Verdict),
       Engine.run a s phases fields th = .ok v →
       v.successRate = ((v.populated.filter (fun p => p.2)).length : ℚ) /
           (fields.length : ℚ)
       ∧ v.populated.map Prod.fst = fields.map FieldSpec.name)
    ∧ comprehensiveFields.length = 17 := by
  refine ⟨?_, rfl⟩
  intro a s phases fields th v hrun
  have hv := run_ok_elim hrun
  subst hv
  refine ⟨mkVerdict_successRate fields _ th, ?_⟩
  rw [mkVerdict_populated, List.map_map]
  rfl

/-- Witness for C1 at a concrete healthy run of the comprehensive
scenario. -/
theorem success_rate_counts_declared_fields_witness :
    ∃ v, Engine.run okAdapter comprehensiveScenario comprehensivePhases
        comprehensiveFields (7/10) = .ok v ∧
      v.successRate = ((v.populated.filter (fun p => p.2)).length : ℚ) /
          (comprehensiveFields.length : ℚ) := by
  have hrun := run_ok_intro okAdapter comprehensiveScenario comprehensivePhases
    comprehensiveFields (7/10) 0 0 rfl (by decide) (by decide) rfl (by decide)
  exact ⟨_, hrun,
    (success_rate_counts_declared_fields.1 _ _ _ _ _ _ hrun).1⟩

/-- C4: when no trigger control matches (match count zero) after a
successful navigation, the run aborts with the distinct error
TriggerNotFoundError and returns no Verdict to the caller. -/
theorem missing_trigger_aborts_run :
    (∀ (a : Adapter) (s : DemoScenario) (phases : List PhaseWindow)
       (fields : List FieldSpec) (th : ℚ) (tq : Nat),
       a.quiescenceAt = some tq → tq ≤ navigationTimeoutMs →
       a.triggerCount = 0 →
       Engine.run a s phases fields th = .error .TriggerNotFoundError ∧
       ∀ v : Verdict, Engine.run a s phases fields th ≠ .ok v)
    ∧ EngineError.TriggerNotFoundError ≠ EngineError.NavigationError
    ∧ EngineError.TriggerNotFoundError ≠ EngineError.TransitionTimeoutError := by
  refine ⟨?_, by decide, by decide⟩
  intro a s phases fields th tq hq hq2 ht
  have h : Engine.run a s phases fields th = .error .TriggerNotFoundError := by
    unfold Engine.run
    rw [hq]
    simp [Nat.not_lt.mpr hq2, ht]
  exact ⟨h, fun v hv => by rw [h] at hv; exact Except.noConfusion hv⟩

/-- Witness for C4: a page with zero Start Demo controls. -/
theorem missing_trigger_aborts_run_witness :
    Engine.run noTriggerAdapter comprehensiveScenario comprehensivePhases
      comprehensiveFields (7/10) = .error .TriggerNotFoundError :=
  (missing_trigger_aborts_run.1 noTriggerAdapter comprehensiveScenario
    comprehensivePhases comprehensiveFields (7/10) 0 rfl (by decide) rfl).1

/-- C5: when the post-trigger URL does not match the expected pattern
within the 10-second bound (it never matches, or matches only after the
bound), the run aborts with TransitionTimeoutError and produces no Verdict;
the error is distinct from the other failure classes, and field-population
failures never produce it (a completed run returns ok). -/
theorem transition_timeout_aborts_run :
    (∀ (a : Adapter) (s : DemoScenario) (phases : List PhaseWindow)
       (fields : List FieldSpec) (th : ℚ) (tq : Nat),
       a.quiescenceAt = some tq → tq ≤ navigationTimeoutMs →
       a.triggerCount ≠ 0 →
       (a.urlMatchAt = none ∨
         ∃ tu, a.urlMatchAt = some tu ∧ transitionTimeoutMs < tu) →
       Engine.run a s phases fields th = .error .TransitionTimeoutError ∧
       ∀ v : Verdict, Engine.run a s phases fields th ≠ .ok v)
    ∧ transitionTimeoutMs = 10000
    ∧ EngineError.TransitionTimeoutError ≠ EngineError.TriggerNotFoundError
    ∧ EngineError.TransitionTimeoutError ≠ EngineError.NavigationError := by
  refine ⟨?_, rfl, by decide, by decide⟩
  intro a s phases fields th tq hq hq2 ht hu
  have h : Engine.run a s phases fields th = .error .TransitionTimeoutError := by
    unfold Engine.run
    rw [hq]
    rcases hu with hu | ⟨tu, hu, htu⟩
    · rw [hu]
      simp [Nat.not_lt.mpr hq2, ht]
    · rw [hu]
      simp [Nat.not_lt.mpr hq2, ht, htu]
  exact ⟨h, fun v hv => by rw [h] at hv; exact Except.noConfusion hv⟩

/-- Witness for C5: a run whose post-trigger URL never matches. -/
theorem transition_timeout_aborts_run_witness :
    Engine.run noTransitionAdapter comprehensiveScenario comprehensivePhases
      comprehensiveFields (7/10) = .error .TransitionTimeoutError :=
  (transition_timeout_aborts_run.1 noTransitionAdapter comprehensiveScenario
    comprehensivePhases comprehensiveFields (7/10) 0 rfl (by decide)
    (by decide) (Or.inl rfl)).1

/-- C8: the harness is deterministic — two runs given identical adapter
responses (same quiescence, trigger count, URL-match time, and field value
at every read) produce identical results, both for the Engine and for the
comprehensive script; the harness introduces no randomness. -/
theorem harness_deterministic :
    ∀ (a₁ a₂ : Adapter) (s : DemoScenario) (phases : List PhaseWindow)
      (fields : List FieldSpec) (th : ℚ),
      a₁.quiescenceAt = a₂.quiescenceAt →
      a₁.triggerCount = a₂.triggerCount →
      a₁.urlMatchAt = a₂.urlMatchAt →
      (∀ t loc, a₁.readField t loc = a₂.readField t loc) →
      Engine.run a₁ s phases fields th = Engine.run a₂ s phases fields th ∧
      script_run a₁ = script_run a₂ := by
  intro a₁ a₂ s phases fields th h1 h2 h3 h4
  have ha : a₁ = a₂ := by
    obtain ⟨q1, t1, u1, r1⟩ := a₁
    obtain ⟨q2, t2, u2, r2⟩ := a₂
    simp only at h1 h2 h3 h4
    have hr : r1 = r2 := funext fun t => funext fun loc => h4 t loc
    rw [h1, h2, h3, hr]
  rw [ha]
  exact ⟨rfl, rfl⟩

/-- Witness for C8: the same adapter on both sides. -/
theorem harness_deterministic_witness :
    Engine.run okAdapter comprehensiveScenario comprehensivePhases
        comprehensiveFields (7/10) =
      Engine.run okAdapter comprehensiveScenario comprehensivePhases
        comprehensiveFields (7/10) :=
  (harness_deterministic okAdapter okAdapter comprehensiveScenario
    comprehensivePhases comprehensiveFields (7/10) rfl rfl rfl
    (fun _ _ => rfl)).1

/-- C9: a field counts as populated exactly when its observed raw string
value is non-empty under Python truthiness — the empty string counts as
unpopulated, a whitespace-only string counts as populated — both in the
Verdict's flags and in the script's own rate computation (a one-space value
among two contributes 50%). -/
theorem populated_iff_python_truthy :
    (∀ s : String, pyTruthy s = true ↔ s ≠ "")
    ∧ pyTruthy "" = false
    ∧ pyTruthy " " = true
    ∧ (∀ (a : Adapter) (sc : DemoScenario) (phases : List PhaseWindow)
         (fields : List FieldSpec) (th : ℚ) (v : Verdict),
         Engine.run a sc phases fields th = .ok v →
         v.populated =
           fields.map (fun f => (f.name, pyTruthy (finalValue v.observations f.name))))
    ∧ script_success_rate ["", " "] = 50 := by
  refine ⟨fun s => decide_eq_true_iff, by decide, by decide, ?_, ?_⟩
  · intro a sc phases fields th v hrun
    have hv := run_ok_elim hrun
    subst hv
    rw [mkVerdict_observations]
    exact mkVerdict_populated fields _ th
  · show ((List.filter (fun f => pyTruthy f) ["", " "]).length : ℚ) /
        (([(""         : String), " "]).length : ℚ) * 100 = 50
    have hf : List.filter (fun f => pyTruthy f) ["", " "] = [" "] := by decide
    rw [hf]
    norm_num

/-- Witness for C9's run-dependent conjunct at a concrete run. -/
theorem populated_iff_python_truthy_witness :
    ∃ v, Engine.run okAdapter comprehensiveScenario comprehensivePhases
        comprehensiveFields (7/10) = .ok v ∧
      v.populated = comprehensiveFields.map
        (fun f => (f.name, pyTruthy (finalValue v.observations f.name))) := by
  have hrun := run_ok_intro okAdapter comprehensiveScenario comprehensivePhases
    comprehensiveFields (7/10) 0 0 rfl (by decide) (by decide) rfl (by decide)
  exact ⟨_, hrun,
    (populated_iff_python_truthy.2.2.2.1) _ _ _ _ _ _ hrun⟩

/-- C10: the comprehensive script's process exit code is 0 exactly when the
body ran to completion and the success rate is at least 70%; every
exception path goes through the single generic handler, which returns
False and yields exit code 1 with no distinction between failure
classes. -/
theorem script_exit_code_semantics :
    (∀ a : Adapter, script_exit_code a = 0 ↔
       ∃ r, script_run a = .ok r ∧ (70 : ℚ) ≤ r)
    ∧ (∀ a : Adapter, script_run a = .exn →
        script_return a = false ∧ script_exit_code a = 1) := by
  constructor
  · intro a
    unfold script_exit_code script_return
    cases h : script_run a with
    | ok r =>
      by_cases hr : (70 : ℚ) ≤ r
      · simp [hr]
      · simp [hr]
    | exn => simp
  · intro a h
    unfold script_exit_code script_return
    rw [h]
    simp

/-- Witness for C10 at a run whose trigger control is absent: the generic
handler path yields exit code 1. -/
theorem script_exit_code_semantics_witness :
    script_return noTriggerAdapter = false ∧
      script_exit_code noTriggerAdapter = 1 :=
  script_exit_code_semantics.2 noTriggerAdapter rfl

/-- C2: the pass verdict is success rate ≥ threshold, inclusive.  With 12
of 17 declared fields populated (the five step-4 package fields empty) the
rate is 12/17 ≈ 0.706, which passes at threshold 0.7 and fails at 0.8; and
at threshold 1 the run passes exactly when every declared field is
populated. -/
theorem pass_threshold_inclusive :
    (∀ (a : Adapter) (s : DemoScenario) (phases : List PhaseWindow)
       (fields : List FieldSpec) (th : ℚ) (v : Verdict),
       Engine.run a s phases fields th = .ok v →
       (v.passed = true ↔ th ≤ v.successRate))
    ∧ (∃ v, Engine.run adapter12 comprehensiveScenario comprehensivePhases
          comprehensiveFields (7/10) = .ok v ∧
        v.successRate = 12/17 ∧ v.passed = true)
    ∧ (∃ v, Engine.run adapter12 comprehensiveScenario comprehensivePhases
          comprehensiveFields (8/10) = .ok v ∧ v.passed = false)
    ∧ (∀ (a : Adapter) (s : DemoScenario) (phases : List PhaseWindow)
         (fields : List FieldSpec) (v : Verdict), fields ≠ [] →
         Engine.run a s phases fields 1 = .ok v →
         (v.passed = true ↔ ∀ p ∈ v.populated, p.2 = true)) := by
  refine ⟨?_, ?_, ?_, ?_⟩
  · intro a s phases fields th v hrun
    have hv := run_ok_elim hrun
    subst hv
    exact mkVerdict_passed_iff fields _ th
  · have hrun := run_ok_intro adapter12 comprehensiveScenario comprehensivePhases
      comprehensiveFields (7/10) 0 0 rfl (by decide) (by decide) rfl (by decide)
    refine ⟨_, hrun, ?_, ?_⟩
    · rfl
    · rw [mkVerdict_passed_iff]
      have hsr : (mkVerdict comprehensiveFields
          (collectObservations adapter12 comprehensivePhases 0 0 comprehensiveFields)
          (7/10)).successRate = 12/17 := rfl
      rw [hsr]
      norm_num
  · have hrun := run_ok_intro adapter12 comprehensiveScenario comprehensivePhases
      comprehensiveFields (8/10) 0 0 rfl (by decide) (by decide) rfl (by decide)
    refine ⟨_, hrun, ?_⟩
    rw [Bool.eq_false_iff, Ne, mkVerdict_passed_iff]
    have hsr : (mkVerdict comprehensiveFields
        (collectObservations adapter12 comprehensivePhases 0 0 comprehensiveFields)
        (8/10)).successRate = 12/17 := rfl
    rw [hsr]
    norm_num
  · intro a s phases fields v hne hrun
    have hv := run_ok_elim hrun
    subst hv
    rw [mkVerdict_passed_iff, mkVerdict_successRate, mkVerdict_populated]
    have hn : (0 : ℚ) < (fields.length : ℚ) := by
      exact_mod_cast List.length_pos.mpr hne
    rw [one_le_div₀ hn, Nat.cast_le]
    have hlen : (fields.map
        (fun f => (f.name, pyTruthy (finalValue
          (collectObservations a phases 0 0 fields) f.name)))).length
        = fields.length := List.length_map _ _
    constructor
    · intro h
      have hle := List.length_filter_le (fun p : String × Bool => p.2)
        (fields.map (fun f => (f.name, pyTruthy (finalValue
          (collectObservations a phases 0 0 fields) f.name))))
      have heq : ((fields.map (fun f => (f.name, pyTruthy (finalValue
          (collectObservations a phases 0 0 fields) f.name)))).filter
            (fun p => p.2)).length
          = (fields.map (fun f => (f.name, pyTruthy (finalValue
            (collectObservations a phases 0 0 fields) f.name)))).length := by
        omega
      intro p hp
      exact List.filter_length_eq_length.mp heq p hp
    · intro h
      have h2 : ((fields.map (fun f => (f.name, pyTruthy (finalValue
          (collectObservations a phases 0 0 fields) f.name)))).filter
            (fun p => p.2)).length
          = (fields.map (fun f => (f.name, pyTruthy (finalValue
            (collectObservations a phases 0 0 fields) f.name)))).length :=
        List.filter_length_eq_length.mpr h
      omega

/-- Witness for C2's universally quantified conjuncts at a concrete run. -/
theorem pass_threshold_inclusive_witness :
    ∃ v, Engine.run okAdapter comprehensiveScenario comprehensivePhases
        comprehensiveFields 1 = .ok v ∧
      (v.passed = true ↔ (1 : ℚ) ≤ v.successRate) ∧
      (v.passed = true ↔ ∀ p ∈ v.populated, p.2 = true) := by
  have hrun := run_ok_intro okAdapter comprehensiveScenario comprehensivePhases
    comprehensiveFields 1 0 0 rfl (by decide) (by decide) rfl (by decide)
  exact ⟨_, hrun,
    pass_threshold_inclusive.1 _ _ _ _ _ _ hrun,
    pass_threshold_inclusive.2.2.2 _ _ _ _ _ (by decide) hrun⟩

/-- Characterization of collected observations: each one comes from a
declared field whose phase matches the window in which it was read, is
stamped with the cumulative elapsed time through that window, and carries
the adapter's read at that time (empty on failure). -/
theorem mem_collectObservations {a : Adapter} :
    ∀ (ws : List PhaseWindow) (idx clock : Nat) (fields : List FieldSpec)
      (o : Observation), o ∈ collectObservations a ws idx clock fields →
      ∃ j f, f ∈ fields ∧ f.phase = idx + j ∧ o.field = f.name ∧
        o.phase = idx + j ∧ o.time = clock + cumDur ws (j + 1) ∧
        o.value = (a.readField o.time f.locator).getD "" := by
  intro ws
  induction ws with
  | nil =>
    intro idx clock fields o ho
    simp [collectObservations] at ho
  | cons w ws ih =>
    intro idx clock fields o ho
    rw [collectObservations] at ho
    rcases List.mem_append.mp ho with h | h
    · rcases List.mem_map.mp h with ⟨f, hf, rfl⟩
      rcases List.mem_filter.mp hf with ⟨hfm, hfp⟩
      have hp : f.phase = idx := by
        have := beq_iff_eq.mp hfp
        exact this
      refine ⟨0, f, hfm, by omega, rfl, ?_, ?_, rfl⟩
      · show idx = idx + 0
        omega
      · show clock + w.duration = clock + cumDur (w :: ws) 1
        have : cumDur (w :: ws) 1 = w.duration + cumDur ws 0 := rfl
        rw [this]
        have : cumDur ws 0 = 0 := by cases ws <;> rfl
        omega
    · rcases ih (idx + 1) (clock + w.duration) fields o h with
        ⟨j, f, hfm, hfp, hof, hop, hot, hov⟩
      refine ⟨j + 1, f, hfm, by omega, hof, by omega, ?_, hov⟩
      rw [hot]
      have : cumDur (w :: ws) (j + 1 + 1) = w.duration + cumDur ws (j + 1) := rfl
      rw [this]
      omega

/-- Collected observations appear in non-decreasing phase and time order:
windows are processed strictly in declared order. -/
theorem collect_pairwise (a : Adapter) :
    ∀ (ws : List PhaseWindow) (idx clock : Nat) (fields : List FieldSpec),
      (collectObservations a ws idx clock fields).Pairwise
        (fun o₁ o₂ => o₁.phase ≤ o₂.phase ∧ o₁.time ≤ o₂.time) := by
  intro ws
  induction ws with
  | nil =>
    intro idx clock fields
    simp [collectObservations]
  | cons w ws ih =>
    intro idx clock fields
    rw [collectObservations]
    refine List.pairwise_append.mpr ⟨?_, ih _ _ _, ?_⟩
    · rw [List.pairwise_map]
      exact List.pairwise_of_forall fun f g => ⟨le_refl _, le_refl _⟩
    · intro o₁ h1 o₂ h2
      rcases List.mem_map.mp h1 with ⟨f, _, rfl⟩
      rcases mem_collectObservations ws (idx + 1) (clock + w.duration)
        fields o₂ h2 with ⟨j, g, _, _, _, hop, hot, _⟩
      constructor
      · show idx ≤ o₂.phase
        omega
      · show clock + w.duration ≤ o₂.time
        omega

/-- Splitting a count over a predicate that is the disjoint union of two
predicates. -/
theorem countP_add_of_or {α : Type} (p q r : α → Bool)
    (hpq : ∀ x, r x = (p x || q x)) (hdisj : ∀ x, ¬(p x = true ∧ q x = true)) :
    ∀ l : List α, l.countP p + l.countP q = l.countP r := by
  intro l
  induction l with
  | nil => simp
  | cons x l ih =>
    rw [List.countP_cons, List.countP_cons, List.countP_cons]
    have h := hpq x
    by_cases hp : p x = true
    · by_cases hq : q x = true
      · exact absurd ⟨hp, hq⟩ (hdisj x)
      · have hq' : q x = false := Bool.eq_false_iff.mpr hq
        have hr : r x = true := by rw [h, hp]; rfl
        simp [hp, hq', hr]
        omega
    · have hp' : p x = false := Bool.eq_false_iff.mpr hp
      by_cases hq : q x = true
      · have hr : r x = true := by rw [h, hp', hq]; rfl
        simp [hp', hq, hr]
        omega
      · have hq' : q x = false := Bool.eq_false_iff.mpr hq
        have hr : r x = false := by rw [h, hp', hq']; rfl
        simp [hp', hq', hr]
        omega

/-- How many observations a given field name receives: one per declared
FieldSpec with that name whose phase falls within the processed windows. -/
theorem countP_collectObservations (a : Adapter) (n : String) :
    ∀ (ws : List PhaseWindow) (idx clock : Nat) (fields : List FieldSpec),
      (collectObservations a ws idx clock fields).countP (fun o => o.field == n)
        = fields.countP (fun g => g.name == n && decide (idx ≤ g.phase) &&
            decide (g.phase < idx + ws.length)) := by
  intro ws
  induction ws with
  | nil =>
    intro idx clock fields
    rw [collectObservations, List.countP_nil]
    symm
    rw [List.countP_eq_zero]
    intro g _
    simp only [Bool.and_eq_true, decide_eq_true_eq, not_and, List.length_nil]
    intro _ _
    omega
  | cons w ws ih =>
    intro idx clock fields
    rw [collectObservations, List.countP_append]
    have h1 : (List.countP (fun o => o.field == n)
        ((fields.filter (fun f => f.phase == idx)).map
          (fun f =>
            ({ field := f.name
               value := (a.readField (clock + w.duration) f.locator).getD ""
               phase := idx
               time := clock + w.duration } : Observation))))
        = fields.countP (fun f => (f.name == n) && (f.phase == idx)) := by
      rw [List.countP_map, List.countP_filter]
      rfl
    rw [h1, ih]
    refine countP_add_of_or _ _ _ ?_ ?_ fields
    · intro x
      by_cases hx : (x.name == n) = true
      · simp only [hx, Bool.true_and]
        rw [Bool.eq_iff_iff]
        simp only [Bool.and_eq_true, Bool.or_eq_true, decide_eq_true_eq,
          beq_iff_eq, List.length_cons]
        omega
      · have hx' : (x.name == n) = false := Bool.eq_false_iff.mpr hx
        simp [hx']
    · intro x hx
      rcases hx with ⟨h1, h2⟩
      simp only [Bool.and_eq_true, decide_eq_true_eq, beq_iff_eq] at h1 h2
      omega

/-- C6: phase windows are processed strictly in declared order, and no
field's value is read before its own phase window has fully elapsed since
trigger time: every observation of a field in phase k is stamped no earlier
than the cumulative waits for windows 0 through k. -/
theorem no_read_before_phase_window :
    (∀ (a : Adapter) (phases : List PhaseWindow) (fields : List FieldSpec)
       (o : Observation), o ∈ collectObservations a phases 0 0 fields →
       cumDur phases (o.phase + 1) ≤ o.time)
    ∧ (∀ (a : Adapter) (phases : List PhaseWindow) (fields : List FieldSpec),
        (collectObservations a phases 0 0 fields).Pairwise
          (fun o₁ o₂ => o₁.phase ≤ o₂.phase ∧ o₁.time ≤ o₂.time))
    ∧ (∀ a : Adapter,
        (collectObservations a comprehensivePhases 0 0
            comprehensiveFields).map (fun o => o.time)
          = comprehensiveReads.map Prod.fst) := by
  refine ⟨?_, ?_, fun a => rfl⟩
  · intro a phases fields o ho
    rcases mem_collectObservations phases 0 0 fields o ho with
      ⟨j, f, _, _, _, hop, hot, _⟩
    rw [hot]
    have hp : o.phase + 1 = j + 1 := by omega
    rw [hp]
    omega
  · intro a phases fields
    exact collect_pairwise a phases 0 0 fields

/-- Witness for C6: the first contact-field observation of a healthy
comprehensive run is stamped at 5000 ms, the end of its phase window. -/
theorem no_read_before_phase_window_witness :
    cumDur comprehensivePhases
        ((⟨"contact_name", "x", 0, 5000⟩ : Observation).phase + 1) ≤
      (⟨"contact_name", "x", 0, 5000⟩ : Observation).time :=
  no_read_before_phase_window.1 okAdapter comprehensivePhases
    comprehensiveFields ⟨"contact_name", "x", 0, 5000⟩ (by decide)

/-- C7: for every declared field of a run that processes its phase, exactly
one Observation is recorded for that field — an empty field is recorded
exactly once as unpopulated and no read is retried. -/
theorem each_field_observed_exactly_once :
    ∀ (a : Adapter) (phases : List PhaseWindow) (fields : List FieldSpec)
      (f : FieldSpec), f ∈ fields →
      fields.countP (fun g => g.name == f.name) = 1 →
      f.phase < phases.length →
      (collectObservations a phases 0 0 fields).countP
        (fun o => o.field == f.name) = 1 := by
  intro a phases fields f hf hone hlt
  rw [countP_collectObservations]
  have hle : fields.countP (fun g => g.name == f.name &&
        decide (0 ≤ g.phase) && decide (g.phase < 0 + phases.length)) ≤
      fields.countP (fun g => g.name == f.name) := by
    apply List.countP_mono_left
    intro g _ hg
    simp only [Bool.and_eq_true] at hg
    exact hg.1.1
  have hpos : 0 < fields.countP (fun g => g.name == f.name &&
      decide (0 ≤ g.phase) && decide (g.phase < 0 + phases.length)) := by
    rw [List.countP_pos_iff]
    refine ⟨f, hf, ?_⟩
    simp only [Bool.and_eq_true, decide_eq_true_eq]
    exact ⟨⟨beq_self_eq_true f.name, Nat.zero_le _⟩, by omega⟩
  omega

/-- Witness for C7: the contact-name field of the comprehensive scenario is
observed exactly once in a healthy run. -/
theorem each_field_observed_exactly_once_witness :
    (collectObservations okAdapter comprehensivePhases 0 0
        comprehensiveFields).countP
      (fun o => o.field ==
        (⟨"contact_name", "#origin-contact-name", 0⟩ : FieldSpec).name) = 1 :=
  each_field_observed_exactly_once okAdapter comprehensivePhases
    comprehensiveFields ⟨"contact_name", "#origin-contact-name", 0⟩
    (by decide) (by decide) (by decide)

/-- Every declared field whose phase lies within the processed windows
receives an observation carrying the adapter's read at the cumulative time
through its window (empty on read failure). -/
theorem collect_mem_of_field {a : Adapter} :
    ∀ (ws : List PhaseWindow) (idx clock : Nat) (fields : List FieldSpec)
      (f : FieldSpec), f ∈ fields → idx ≤ f.phase → f.phase < idx + ws.length →
      (⟨f.name,
        (a.readField (clock + cumDur ws (f.phase - idx + 1)) f.locator).getD "",
        f.phase, clock + cumDur ws (f.phase - idx + 1)⟩ : Observation)
        ∈ collectObservations a ws idx clock fields := by
  intro ws
  induction ws with
  | nil =>
    intro idx clock fields f _ h1 h2
    simp only [List.length_nil] at h2
    omega
  | cons w ws ih =>
    intro idx clock fields f hf h1 h2
    rw [collectObservations, List.mem_append]
    by_cases hp : f.phase = idx
    · left
      apply List.mem_map.mpr
      refine ⟨f, List.mem_filter.mpr ⟨hf, by simp [hp]⟩, ?_⟩
      have ht : cumDur (w :: ws) (f.phase - idx + 1) = w.duration := by
        have h0 : f.phase - idx = 0 := by omega
        rw [h0]
        show w.duration + cumDur ws 0 = w.duration
        have hz : cumDur ws 0 = 0 := by cases ws <;> rfl
        omega
      rw [ht, hp]
    · right
      have h1' : idx + 1 ≤ f.phase := by omega
      have h2' : f.phase < (idx + 1) + ws.length := by
        simp only [List.length_cons] at h2
        omega
      have hrec := ih (idx + 1) (clock + w.duration) fields f hf h1' h2'
      have ht : clock + cumDur (w :: ws) (f.phase - idx + 1) =
          (clock + w.duration) + cumDur ws (f.phase - (idx + 1) + 1) := by
        have h3 : f.phase - idx + 1 = (f.phase - (idx + 1) + 1) + 1 := by omega
        rw [h3]
        show clock + (w.duration + cumDur ws (f.phase - (idx + 1) + 1)) = _
        omega
      rw [ht]
      exact hrec

/-- With unique field names, a field is determined by its name. -/
theorem eq_of_countP_name_one {fields : List FieldSpec} {f g : FieldSpec}
    (hone : fields.countP (fun x => x.name == f.name) = 1)
    (hf : f ∈ fields) (hg : g ∈ fields) (hgn : g.name = f.name) : g = f := by
  have hf' : f ∈ fields.filter (fun x => x.name == f.name) :=
    List.mem_filter.mpr ⟨hf, beq_self_eq_true f.name⟩
  have hg' : g ∈ fields.filter (fun x => x.name == f.name) :=
    List.mem_filter.mpr ⟨hg, by rw [hgn]; exact beq_self_eq_true f.name⟩
  have hlen : (fields.filter (fun x => x.name == f.name)).length = 1 := by
    rw [← List.countP_eq_length_filter]
    exact hone
  rcases List.length_eq_one.mp hlen with ⟨x, hx⟩
  rw [hx, List.mem_singleton] at hf' hg'
  rw [hg', hf']

/-- C3: a read failure on an individual declared field (element missing or
unreadable at its read time) is recorded as an empty-value Observation for
that field, the run still completes through all phases with a Verdict, and
the field is folded into the success-rate computation as unpopulated rather
than aborting the run. -/
theorem field_read_failure_nonfatal :
    ∀ (a : Adapter) (s : DemoScenario) (phases : List PhaseWindow)
      (fields : List FieldSpec) (th : ℚ) (tq tu : Nat) (f : FieldSpec),
      a.quiescenceAt = some tq → tq ≤ navigationTimeoutMs →
      a.triggerCount ≠ 0 →
      a.urlMatchAt = some tu → tu ≤ transitionTimeoutMs →
      f ∈ fields → fields.countP (fun g => g.name == f.name) = 1 →
      f.phase < phases.length →
      a.readField (cumDur phases (f.phase + 1)) f.locator = none →
      ∃ v, Engine.run a s phases fields th = .ok v ∧
        (⟨f.name, "", f.phase, cumDur phases (f.phase + 1)⟩ : Observation)
          ∈ v.observations ∧
        (f.name, false) ∈ v.populated := by
  intro a s phases fields th tq tu f hq hq2 htc hu hu2 hfm hone hlt hnone
  have hrun := run_ok_intro a s phases fields th tq tu hq hq2 htc hu hu2
  have hmem := collect_mem_of_field (a := a) phases 0 0 fields f hfm
    (Nat.zero_le _) (by omega)
  simp only [Nat.sub_zero, Nat.zero_add] at hmem
  rw [hnone, Option.getD_none] at hmem
  have hval : ∀ o ∈ collectObservations a phases 0 0 fields,
      o.field = f.name → o.value = "" := by
    intro o ho hof
    rcases mem_collectObservations phases 0 0 fields o ho with
      ⟨j, g, hgm, hgp, hogf, hop, hot, hov⟩
    have hg : g = f := eq_of_countP_name_one hone hfm hgm (by rw [← hogf, hof])
    subst hg
    have htj : o.time = cumDur phases (g.phase + 1) := by
      rw [hot]
      have : g.phase + 1 = j + 1 := by omega
      rw [this]
      omega
    rw [hov, htj, hnone, Option.getD_none]
  have hfv : finalValue (collectObservations a phases 0 0 fields) f.name = "" := by
    unfold finalValue
    cases hfind : (collectObservations a phases 0 0 fields).find?
        (fun o => o.field == f.name) with
    | none => rfl
    | some o =>
      have hpred := List.find?_some hfind
      have homem := List.mem_of_find?_eq_some hfind
      have : o.value = "" := hval o homem (beq_iff_eq.mp hpred)
      simp [this]
  refine ⟨_, hrun, ?_, ?_⟩
  · rw [mkVerdict_observations]
    exact hmem
  · rw [mkVerdict_populated]
    apply List.mem_map.mpr
    refine ⟨f, hfm, ?_⟩
    rw [hfv]
    have hpt : pyTruthy "" = false := by decide
    rw [hpt]

/-- Witness for C3: the origin-zip element is missing in an otherwise
healthy comprehensive run; the run completes and records origin-zip empty
and unpopulated. -/
theorem field_read_failure_nonfatal_witness :
    ∃ v, Engine.run missingFieldAdapter comprehensiveScenario
        comprehensivePhases comprehensiveFields (7/10) = .ok v ∧
      (⟨(⟨"origin_zip", "#origin-zip", 1⟩ : FieldSpec).name, "",
        (⟨"origin_zip", "#origin-zip", 1⟩ : FieldSpec).phase,
        cumDur comprehensivePhases
          ((⟨"origin_zip", "#origin-zip", 1⟩ : FieldSpec).phase + 1)⟩ :
        Observation) ∈ v.observations ∧
      ((⟨"origin_zip", "#origin-zip", 1⟩ : FieldSpec).name, false)
        ∈ v.populated :=
  field_read_failure_nonfatal missingFieldAdapter comprehensiveScenario
    comprehensivePhases comprehensiveFields (7/10) 0 0
    ⟨"origin_zip", "#origin-zip", 1⟩ rfl (by decide) (by decide) rfl
    (by decide) (by decide) (by decide) (by decide) (by decide)

end DemoTest
